import Mathlib

/-
Verification of the core shipping engine of go-lane-opensearch
(`openSearchConnection.go`), shallowly embedded in Lean 4.

Modelling conventions:
* Go `int` and `time.Duration` (an `int64` nanosecond count) become `Int`.
  The counters and durations involved never approach overflow, so plain
  integer arithmetic is faithful.
* `*http.Transport` is only ever compared against `nil` and passed through,
  so it is modelled by a presence flag.
* The callbacks `OslEmergencyFn`/`OslShardNameFn` are modelled as Lean
  functions; the emergency callback returns nothing, so invocations are
  modelled by returning the batch that the code hands to it (empty when no
  handler is installed).
* The asynchronous bulk-send goroutine is modelled by an explicit in-flight
  record created when `flushInner` takes the buffer, and a separate
  completion step (`bulkDone`) that performs the goroutine body's state
  updates; the goroutine's reads and deferred writes of `backoffDuration`
  are folded into the completion step.
-/

namespace Osl

/-- Go `time.Duration`: an int64 count of nanoseconds. -/
abbrev Duration := Int

/-- Default threshold for triggering bulk insertion (`OslDefaultLogThreshold`). -/
def OslDefaultLogThreshold : Int := 100

/-- Default maximum buffer size (`OslDefaultMaxBufferSize`). -/
def OslDefaultMaxBufferSize : Int := 100

/-- Default backoff interval, 10 seconds in nanoseconds. -/
def OslDefaultBackoffInterval : Duration := 10 * 1000000000

/-- Default backoff limit, 10 minutes in nanoseconds. -/
def OslDefaultBackoffLimit : Duration := 600 * 1000000000

/-- A log record (`OslMessage`): appName plus correlation ids, rendered
message and metadata. -/
structure OslMessage where
  appName : String
  parentLaneId : String
  journeyId : String
  laneId : String
  logMessage : String
  metadata : List (String × String)
  deriving DecidableEq

/-- The emergency callback type `OslEmergencyFn func(logBuffer []*OslMessage)`. -/
def OslEmergencyFn : Type := List OslMessage → Unit

/-- The index sharder type `OslShardNameFn func(baseName string) string`. -/
def OslShardNameFn : Type := String → String

/-- Connection settings (`OslConfig`).  `openSearchTransportPresent` models
whether the `*http.Transport` pointer is non-nil. -/
structure OslConfig where
  offline : Bool
  openSearchHost : String
  openSearchProtocol : String
  openSearchPort : Int
  openSearchUser : String
  openSearchPass : String
  openSearchIndex : String
  openSearchAppName : String
  openSearchTransportPresent : Bool
  logThreshold : Int
  maxBufferSize : Int
  backoffInterval : Duration
  backoffLimit : Duration
  deriving DecidableEq

/-- The zero value `OslConfig{}` of the Go struct. -/
def emptyConfig : OslConfig where
  offline := false
  openSearchHost := ""
  openSearchProtocol := ""
  openSearchPort := 0
  openSearchUser := ""
  openSearchPass := ""
  openSearchIndex := ""
  openSearchAppName := ""
  openSearchTransportPresent := false
  logThreshold := 0
  maxBufferSize := 0
  backoffInterval := 0
  backoffLimit := 0

/-- One asynchronous bulk send spawned by `flushInner`: the taken batch and
the values the goroutine captured at spawn time (`final` and the emergency
handler read under the lock). -/
structure InFlightSend where
  batch : List OslMessage
  final : Bool
  efCaptured : Option OslEmergencyFn

/-- State of `openSearchConnection` together with the shipper loop's local
`client` handle (`clientPresent`).  `inFlight` lists the outstanding
asynchronous bulk sends (the goroutines spawned by `flushInner`);
`flushing` models `osc.flushing != nil`. -/
structure OpenSearchConnection where
  logBuffer : List OslMessage
  emergencyFn : Option OslEmergencyFn
  sharderFn : Option OslShardNameFn
  messagesQueued : Int
  messagesSent : Int
  messagesSentFailed : Int
  cfg : OslConfig
  backoffDuration : Duration
  clientPresent : Bool
  flushing : Bool
  inFlight : List InFlightSend

/-- The state right after `newOpenSearchConnection` allocates the struct
(before `connect` runs): empty buffer, zero counters, zero-value config. -/
def initialConnection : OpenSearchConnection where
  logBuffer := []
  emergencyFn := none
  sharderFn := none
  messagesQueued := 0
  messagesSent := 0
  messagesSentFailed := 0
  cfg := emptyConfig
  backoffDuration := 0
  clientPresent := false
  flushing := false
  inFlight := []

/-- Go semantics of `osc.wakeCh <- struct\x7b\x7d{}`, a send on a channel of
capacity 1: `some true` when the buffer slot is free (the send completes at
once, leaving the slot occupied), `none` when the slot is already occupied
(the sender must block until the receiver drains the slot). -/
def wakeChanSend (slotFull : Bool) : Option Bool :=
  if slotFull then none else some true

/-- The wake-channel send as the specification describes it ("a single-slot
non-blocking wake signal is emitted; if the slot is already pending, no new
signal is sent"): the send always completes immediately and the slot is
occupied afterwards. -/
def wakeChanSendSpec (_slotFull : Bool) : Option Bool :=
  some true

/-- Result of `openSearchConnection.log`: the updated state, the dropped
records, the records handed to the emergency callback, and whether the code
reaches the `osc.wakeCh <- struct\x7b\x7d{}` send. -/
structure LogResult where
  state : OpenSearchConnection
  dropped : List OslMessage
  emergencyOut : List OslMessage
  wakeSignal : Bool

/-- The raw cut point computed in `openSearchConnection.log` (lines
108-110): `toRemove + inFlight`, where `toRemove = (pending+1) -
MaxBufferSize` and `inFlight = pending - len(logBuffer)`. -/
def OpenSearchConnection.logCutPoint (osc : OpenSearchConnection) : Int :=
  ((osc.messagesQueued - osc.messagesSent) + 1 - osc.cfg.maxBufferSize) +
    ((osc.messagesQueued - osc.messagesSent) - (osc.logBuffer.length : Int))

/-- The cut point capped at the buffer length (lines 112-114). -/
def OpenSearchConnection.logCut (osc : OpenSearchConnection) : Nat :=
  (if osc.logCutPoint ≥ (osc.logBuffer.length : Int) then (osc.logBuffer.length : Int)
   else osc.logCutPoint).toNat

/-- The overflow handling at the top of `openSearchConnection.log`
(lines 105-118): when `pending ≥ maxBufferSize` and the cut point is
positive, cut the capped cut point off the front of the buffer.
Returns `(dropped, kept)`. -/
def OpenSearchConnection.logDropSplit (osc : OpenSearchConnection) :
    List OslMessage × List OslMessage :=
  if osc.messagesQueued - osc.messagesSent ≥ osc.cfg.maxBufferSize then
    if osc.logCutPoint > 0 then
      (osc.logBuffer.take osc.logCut, osc.logBuffer.drop osc.logCut)
    else ([], osc.logBuffer)
  else ([], osc.logBuffer)

/-- `openSearchConnection.log`, translated line by line from the source
(lines 100-142 of openSearchConnection.go). -/
def OpenSearchConnection.log (osc : OpenSearchConnection) (msg : OslMessage) : LogResult :=
  let dropped := osc.logDropSplit.1
  let buf := osc.logDropSplit.2
  let stamped := { msg with appName := osc.cfg.openSearchAppName }
  let buf := buf ++ [stamped]
  let queued := osc.messagesQueued + 1
  let pending2 := queued - osc.messagesSent
  let wake := Int.tmod pending2 osc.cfg.logThreshold = 0
  let sentFailed :=
    if 0 < dropped.length then osc.messagesSentFailed + (dropped.length : Int)
    else osc.messagesSentFailed
  { state := { osc with logBuffer := buf, messagesQueued := queued, messagesSentFailed := sentFailed }
    dropped := dropped
    emergencyOut := if 0 < dropped.length ∧ osc.emergencyFn.isSome then dropped else []
    wakeSignal := decide wake }

/-- Result of a flush-path operation: the updated state and the records the
code handed to the emergency callback during the step. -/
structure FlushResult where
  state : OpenSearchConnection
  emergencyOut : List OslMessage

/-- `openSearchConnection.flushInner` (lines 275-362): take the buffer
(unless empty), hand it straight to the emergency callback when there is no
client or no index, and otherwise become the flushing owner and start the
asynchronous bulk send (modelled as pushing an `InFlightSend`; the
goroutine body runs at the matching `bulkDone` step). -/
def OpenSearchConnection.flushInner (osc : OpenSearchConnection) (final : Bool) : FlushResult :=
  if osc.logBuffer = [] then
    ⟨{ osc with backoffDuration := 0 }, []⟩
  else
    let batch := osc.logBuffer
    let ef := osc.emergencyFn
    let osc := { osc with logBuffer := [] }
    if osc.clientPresent = false ∨ osc.cfg.openSearchIndex = "" then
      ⟨osc, if ef.isSome then batch else []⟩
    else
      ⟨{ osc with flushing := true,
                  inFlight := ⟨batch, final, ef⟩ :: osc.inFlight }, []⟩

/-- `openSearchConnection.flush` (lines 248-273): no-op when there is no
client and the call is not final; when a prior flush is still in flight a
non-final caller returns immediately, and a final caller waits for the
owner (modelled as returning unchanged in this step — the outstanding
send's `bulkDone` step runs first and the final flush is then re-issued). -/
def OpenSearchConnection.flush (osc : OpenSearchConnection) (final : Bool) : FlushResult :=
  if osc.clientPresent = false ∧ final = false then
    ⟨osc, []⟩
  else if osc.flushing then
    ⟨osc, []⟩
  else
    osc.flushInner final

/-- The next retry delay computed by the goroutine in `flushInner` on a
failed send (lines 326-330): the first failure uses `BackoffInterval`,
later failures double the previous delay. -/
def OpenSearchConnection.nextBackoffDelay (osc : OpenSearchConnection) : Duration :=
  if osc.backoffDuration = 0 then osc.cfg.backoffInterval else osc.backoffDuration * 2

/-- Completion of the asynchronous bulk send: the body of the goroutine in
`flushInner` (lines 309-356) after `bulkInsert` returns, with `sendFailed`
telling whether it returned an error.  Includes the deferred writes of
`backoffDuration` and `flushing`. -/
def OpenSearchConnection.bulkDone (osc : OpenSearchConnection) (sendFailed : Bool) : FlushResult :=
  match osc.inFlight with
  | [] => ⟨osc, []⟩
  | s :: rest =>
    if sendFailed then
      let d := osc.nextBackoffDelay
      if d > osc.cfg.backoffLimit ∨ s.final = true then
        -- waited too long or final: give the batch up to the emergency log
        ⟨{ osc with messagesSentFailed := osc.messagesSentFailed + (s.batch.length : Int),
                    backoffDuration := osc.cfg.backoffInterval,
                    flushing := false, inFlight := rest },
          if s.efCaptured.isSome then s.batch else []⟩
      else
        -- failed to send: put the messages back in the queue and retry
        ⟨{ osc with logBuffer := s.batch ++ osc.logBuffer,
                    backoffDuration := d,
                    flushing := false, inFlight := rest }, []⟩
    else
      ⟨{ osc with messagesSent := osc.messagesSent + (s.batch.length : Int),
                  backoffDuration := 0,
                  flushing := false, inFlight := rest }, []⟩

/-- `openSearchConnection.setEmergencyHandler` (lines 73-79). -/
def OpenSearchConnection.setEmergencyHandler (osc : OpenSearchConnection)
    (emergencyFn : Option OslEmergencyFn) : Option OslEmergencyFn × OpenSearchConnection :=
  (osc.emergencyFn, { osc with emergencyFn := emergencyFn })

/-- `openSearchConnection.setIndexSharder` (lines 81-87). -/
def OpenSearchConnection.setIndexSharder (osc : OpenSearchConnection)
    (sharderFn : Option OslShardNameFn) : Option OslShardNameFn × OpenSearchConnection :=
  (osc.sharderFn, { osc with sharderFn := sharderFn })

/-- The error `ErrIndexNameRequired`, or a client-construction failure
reported by `newOpenSearchClient`. -/
inductive ConnectError where
  | indexNameRequired
  | clientError
  deriving DecidableEq

/-- Default for `LogThreshold` (lines 168-170). -/
def defaultLogThresholdRule (c : OslConfig) : OslConfig :=
  if c.logThreshold ≤ 0 then { c with logThreshold := OslDefaultLogThreshold } else c

/-- Default for `MaxBufferSize` (lines 171-173). -/
def defaultMaxBufferSizeRule (c : OslConfig) : OslConfig :=
  if c.maxBufferSize ≤ 0 then { c with maxBufferSize := OslDefaultMaxBufferSize } else c

/-- Default for `BackoffInterval` (lines 174-176). -/
def defaultBackoffIntervalRule (c : OslConfig) : OslConfig :=
  if c.backoffInterval ≤ 0 then { c with backoffInterval := OslDefaultBackoffInterval } else c

/-- Default for `BackoffLimit` (lines 177-179). -/
def defaultBackoffLimitRule (c : OslConfig) : OslConfig :=
  if c.backoffLimit ≤ 0 then { c with backoffLimit := OslDefaultBackoffLimit } else c

/-- Default normalization of the numeric config fields in
`openSearchConnection.connect` (lines 168-179), applied in source order. -/
def applyConfigDefaults (c : OslConfig) : OslConfig :=
  defaultBackoffLimitRule (defaultBackoffIntervalRule (defaultMaxBufferSizeRule (defaultLogThresholdRule c)))

/-- The offline rule in `connect` (lines 151-153): missing host or nil
transport forces `offline`. -/
def offlineNormalize (c : OslConfig) : OslConfig :=
  if c.openSearchHost = "" ∨ c.openSearchTransportPresent = false then
    { c with offline := true }
  else c

/-- Default protocol `"https"` (lines 159-161). -/
def defaultProtocolRule (c : OslConfig) : OslConfig :=
  if c.openSearchProtocol = "" then { c with openSearchProtocol := "https" } else c

/-- Default port `9200` (lines 162-164). -/
def defaultPortRule (c : OslConfig) : OslConfig :=
  if c.openSearchPort = 0 then { c with openSearchPort := 9200 } else c

/-- The protocol/port defaults applied to online configs in `connect`
(lines 158-165). -/
def onlineDefaults (c : OslConfig) : OslConfig :=
  if c.offline = false then defaultPortRule (defaultProtocolRule c) else c

/-- The sanitization part of `openSearchConnection.connect` (lines 144-179):
offline rule, index validation, protocol/port defaults, numeric defaults.
`none` models a nil `*OslConfig`. -/
def connectSanitize (config : Option OslConfig) : Except ConnectError OslConfig :=
  match config with
  | none => Except.ok (applyConfigDefaults { emptyConfig with offline := true })
  | some c =>
    if (offlineNormalize c).openSearchIndex = "" ∧ (offlineNormalize c).offline = false then
      Except.error ConnectError.indexNameRequired
    else
      Except.ok (applyConfigDefaults (onlineDefaults (offlineNormalize c)))

/-- `connect` plus the shipper's handling of the connect request (lines
181-187 and 204-223): on sanitize success the shipper installs the config,
clears `backoffDuration` and rebuilds the client; `clientOk` tells whether
`newOpenSearchClient` succeeds (on failure the client is nil and the error
is returned to the caller).  On a sanitize error nothing is submitted. -/
def OpenSearchConnection.connectStep (osc : OpenSearchConnection)
    (config : Option OslConfig) (clientOk : Bool) :
    Option ConnectError × OpenSearchConnection :=
  match connectSanitize config with
  | Except.error e => (some e, osc)
  | Except.ok cfg =>
    let osc := { osc with cfg := cfg, backoffDuration := 0 }
    if cfg.offline then (none, { osc with clientPresent := false })
    else if clientOk then (none, { osc with clientPresent := true })
    else (some ConnectError.clientError, { osc with clientPresent := false })

/-- One step of the system: a producer appending a record, the shipper
flushing, an asynchronous send completing, a callback being installed, or a
reconfiguration. -/
inductive OslOp where
  | logMsg (msg : OslMessage)
  | flushOp (final : Bool)
  | bulkDoneOp (sendFailed : Bool)
  | setEmergency (f : Option OslEmergencyFn)
  | setSharder (f : Option OslShardNameFn)
  | connectOp (config : Option OslConfig) (clientOk : Bool)

/-- Apply one step to the connection state. -/
def applyOp (osc : OpenSearchConnection) : OslOp → OpenSearchConnection
  | OslOp.logMsg msg => (osc.log msg).state
  | OslOp.flushOp final => (osc.flush final).state
  | OslOp.bulkDoneOp sendFailed => (osc.bulkDone sendFailed).state
  | OslOp.setEmergency f => (osc.setEmergencyHandler f).2
  | OslOp.setSharder f => (osc.setIndexSharder f).2
  | OslOp.connectOp config clientOk => (osc.connectStep config clientOk).2

/-- Apply a sequence of steps. -/
def applyOps (osc : OpenSearchConnection) (ops : List OslOp) : OpenSearchConnection :=
  ops.foldl applyOp osc

/-- Total record count of a list of outstanding sends. -/
def inFlightSizes (l : List InFlightSend) : Int :=
  ((l.map (fun s => s.batch.length)).sum : Int)

/-- Total number of records held by outstanding asynchronous sends. -/
def inFlightTotal (osc : OpenSearchConnection) : Int :=
  inFlightSizes osc.inFlight

/-- `pending` minus the records still held (buffered or in flight): the
number of records that left the engine without being counted as sent. -/
def slack (osc : OpenSearchConnection) : Int :=
  (osc.messagesQueued - osc.messagesSent) - ((osc.logBuffer.length : Int) + inFlightTotal osc)

/-- Hex digit (lowercase) as used by Go's JSON encoder in `\u00XX` escapes. -/
def hexDigit (n : Nat) : Char :=
  if n < 10 then Char.ofNat (48 + n) else Char.ofNat (87 + n)

/-- Escaping of one character by Go's `encoding/json` string encoder (with
its default HTML escaping of `<`, `>`, `&`). -/
def goJsonEscapeChar (c : Char) : String :=
  if c = '"' then "\\\""
  else if c = '\\' then "\\\\"
  else if c = '\n' then "\\n"
  else if c = '\r' then "\\r"
  else if c = '\t' then "\\t"
  else if c = '<' then "\\u003c"
  else if c = '>' then "\\u003e"
  else if c = '&' then "\\u0026"
  else if c.toNat < 32 then
    "\\u00" ++ String.mk [hexDigit (c.toNat / 16), hexDigit (c.toNat % 16)]
  else String.singleton c

/-- Go's JSON encoding of a string value (quotes plus escaping). -/
def goJsonQuote (s : String) : String :=
  "\"" ++ String.join (s.data.map goJsonEscapeChar) ++ "\""

/-- `json.Marshal(map[string]any\x7b"create": map[string]any\x7b"_index": index\x7d\x7d)`:
for this fixed singleton-map shape Go's marshaller always succeeds and
produces exactly this line. -/
def createActionLine (index : String) : String :=
  "\x7b\"create\":\x7b\"_index\":" ++ goJsonQuote index ++ "\x7d\x7d"

/-- Go's `strings.Join`. -/
def goStringsJoin (elems : List String) (sep : String) : String :=
  match elems with
  | [] => ""
  | [e] => e
  | e :: rest => e ++ sep ++ goStringsJoin rest sep

/-- The loop of `openSearchConnection.generateBulkJson` (lines 411-430):
for each record, the action line (index sharded when a sharder is set and
the index is non-empty) followed by the JSON-encoded record.  The record
marshaller `marshalMsg` stands for the external `json.Marshal`; an error
aborts the batch. -/
def generateBulkJsonLines (osc : OpenSearchConnection)
    (marshalMsg : OslMessage → Except String String) :
    List OslMessage → Except String (List String)
  | [] => Except.ok []
  | logData :: rest =>
    let index := osc.cfg.openSearchIndex
    let index := match osc.sharderFn with
      | some f => if index ≠ "" then f index else index
      | none => index
    match marshalMsg logData with
    | Except.error e => Except.error e
    | Except.ok logDataLine =>
      match generateBulkJsonLines osc marshalMsg rest with
      | Except.error e => Except.error e
      | Except.ok ls => Except.ok (createActionLine index :: logDataLine :: ls)

/-- `openSearchConnection.generateBulkJson` (lines 406-435):
`strings.Join(lines, "\n") + "\n"`. -/
def OpenSearchConnection.generateBulkJson (osc : OpenSearchConnection)
    (marshalMsg : OslMessage → Except String String)
    (logBuffer : List OslMessage) : Except String String :=
  match generateBulkJsonLines osc marshalMsg logBuffer with
  | Except.error e => Except.error e
  | Except.ok lines => Except.ok (goStringsJoin lines "\n" ++ "\n")

/-- The per-record index required by the specification: `config.index`
transformed by the sharder when that function is set and the index is
non-empty. -/
def specIndexFor (osc : OpenSearchConnection) : String :=
  match osc.sharderFn with
  | some f => if osc.cfg.openSearchIndex ≠ "" then f osc.cfg.openSearchIndex else osc.cfg.openSearchIndex
  | none => osc.cfg.openSearchIndex

/-- The bulk payload as the specification words it: one pair per record in
batch order — the action line then the JSON-encoded record — joined by
newlines and ending with a single trailing newline (`marshalled` gives each
record's JSON encoding). -/
def bulkPayloadSpec (osc : OpenSearchConnection) (marshalled : OslMessage → String) :
    List OslMessage → String
  | [] => ""
  | m :: rest =>
    createActionLine (specIndexFor osc) ++ "\n" ++ marshalled m ++ "\n" ++
      bulkPayloadSpec osc marshalled rest

/-- The capped cut never exceeds the buffer length. -/
theorem logCut_le (osc : OpenSearchConnection) : osc.logCut ≤ osc.logBuffer.length := by
  unfold OpenSearchConnection.logCut
  split <;> omega

/-- The overflow split always cuts some front segment of the buffer. -/
theorem logDropSplit_shape (osc : OpenSearchConnection) :
    ∃ k : Nat, k ≤ osc.logBuffer.length ∧
      osc.logDropSplit = (osc.logBuffer.take k, osc.logBuffer.drop k) := by
  unfold OpenSearchConnection.logDropSplit
  split
  · split
    · exact ⟨osc.logCut, logCut_le osc, rfl⟩
    · exact ⟨0, Nat.zero_le _, by simp⟩
  · exact ⟨0, Nat.zero_le _, by simp⟩

/-- Characterization of `log`: some front segment of length `k` is dropped,
the stamped record is appended, `queued` rises by one, `sentFailed` rises
by `k`, and everything else is untouched. -/
theorem log_shape (osc : OpenSearchConnection) (msg : OslMessage) :
    ∃ k : Nat, k ≤ osc.logBuffer.length ∧
      (osc.log msg).dropped = osc.logBuffer.take k ∧
      (osc.log msg).state.logBuffer =
        osc.logBuffer.drop k ++ [{ msg with appName := osc.cfg.openSearchAppName }] ∧
      (osc.log msg).state.messagesQueued = osc.messagesQueued + 1 ∧
      (osc.log msg).state.messagesSent = osc.messagesSent ∧
      (osc.log msg).state.messagesSentFailed = osc.messagesSentFailed + (k : Int) ∧
      (osc.log msg).state.inFlight = osc.inFlight ∧
      (osc.log msg).state.flushing = osc.flushing ∧
      (osc.log msg).state.clientPresent = osc.clientPresent ∧
      (osc.log msg).state.cfg = osc.cfg ∧
      (osc.log msg).state.backoffDuration = osc.backoffDuration ∧
      (osc.log msg).state.emergencyFn = osc.emergencyFn ∧
      (osc.log msg).state.sharderFn = osc.sharderFn := by
  obtain ⟨k, hk, hsplit⟩ := logDropSplit_shape osc
  have hlen : (osc.logBuffer.take k).length = k := by
    rw [List.length_take, Nat.min_eq_left hk]
  refine ⟨k, hk, ?_, ?_, ?_, ?_, ?_, ?_, ?_, ?_, ?_, ?_, ?_, ?_⟩ <;>
      simp only [OpenSearchConnection.log, hsplit] <;>
    first
      | rfl
      | (show (if 0 < (osc.logBuffer.take k).length then
              osc.messagesSentFailed + ((osc.logBuffer.take k).length : Int)
            else osc.messagesSentFailed) = osc.messagesSentFailed + (k : Int)
         rw [hlen]
         rcases Nat.eq_zero_or_pos k with h0 | h0
         · simp [h0]
         · simp [h0])

/-- `inFlightSizes` of a cons. -/
theorem inFlightSizes_cons (x : InFlightSend) (l : List InFlightSend) :
    inFlightSizes (x :: l) = (x.batch.length : Int) + inFlightSizes l := by
  simp [inFlightSizes]

/-- `slack` never decreases across any step: records that leave the engine
uncounted are never reclaimed. -/
theorem slack_mono (osc : OpenSearchConnection) (op : OslOp) :
    slack osc ≤ slack (applyOp osc op) := by
  cases op with
  | logMsg msg =>
    obtain ⟨k, hk, _, hbuf, hq, hs, _, hif, _⟩ := log_shape osc msg
    simp only [applyOp, slack, inFlightTotal, hbuf, hq, hs, hif]
    simp only [List.length_append, List.length_drop, List.length_cons, List.length_nil]
    push_cast [hk]
    omega
  | flushOp final =>
    simp only [applyOp, OpenSearchConnection.flush]
    split
    · exact le_refl _
    · split
      · exact le_refl _
      · simp only [OpenSearchConnection.flushInner]
        split
        · exact le_refl _
        · split
          · simp only [slack, inFlightTotal]
            simp
            try omega
          · simp only [slack, inFlightTotal, inFlightSizes_cons]
            simp
            try omega
  | bulkDoneOp sendFailed =>
    simp only [applyOp, OpenSearchConnection.bulkDone]
    split
    · exact le_refl _
    · next s rest heq =>
      split
      · split
        · simp only [slack, inFlightTotal, heq, inFlightSizes_cons]
          simp
          try omega
        · simp only [slack, inFlightTotal, heq, inFlightSizes_cons]
          simp
          try omega
      · simp only [slack, inFlightTotal, heq, inFlightSizes_cons]
        simp
        try omega
  | setEmergency f => exact le_refl _
  | setSharder f => exact le_refl _
  | connectOp config clientOk =>
    simp only [applyOp, OpenSearchConnection.connectStep]
    split
    · exact le_refl _
    · split
      · exact le_refl _
      · split <;> exact le_refl _

/-- `slack` never decreases across any sequence of steps. -/
theorem slack_mono_ops (osc : OpenSearchConnection) (ops : List OslOp) :
    slack osc ≤ slack (applyOps osc ops) := by
  induction ops generalizing osc with
  | nil => exact le_refl _
  | cons op rest ih =>
    exact le_trans (slack_mono osc op) (ih (applyOp osc op))

/-- The single-owner discipline: the `flushing` marker is clear only when
no send is outstanding, and at most one send is ever outstanding. -/
def singleFlightInv (osc : OpenSearchConnection) : Prop :=
  (osc.flushing = false → osc.inFlight = []) ∧ osc.inFlight.length ≤ 1

/-- Each step preserves the single-owner discipline. -/
theorem singleFlightInv_step (osc : OpenSearchConnection) (op : OslOp)
    (h : singleFlightInv osc) : singleFlightInv (applyOp osc op) := by
  obtain ⟨h1, h2⟩ := h
  cases op with
  | logMsg msg =>
    obtain ⟨k, _, _, _, _, _, _, hif, hfl, _⟩ := log_shape osc msg
    simp only [applyOp]
    exact ⟨fun hf => by rw [hif]; exact h1 (hfl ▸ hf), by rw [hif]; exact h2⟩
  | flushOp final =>
    simp only [applyOp, OpenSearchConnection.flush]
    split
    · exact ⟨h1, h2⟩
    · split
      · exact ⟨h1, h2⟩
      · next hnotfl =>
        have hfl : osc.flushing = false := by
          simpa using hnotfl
        simp only [OpenSearchConnection.flushInner]
        split
        · exact ⟨fun _ => h1 hfl, by rw [h1 hfl]; exact Nat.zero_le _⟩
        · split
          · exact ⟨fun _ => h1 hfl, by rw [h1 hfl]; exact Nat.zero_le _⟩
          · refine ⟨fun hcontra => by simp at hcontra, ?_⟩
            show (⟨_, _, _⟩ :: osc.inFlight).length ≤ 1
            rw [h1 hfl]
            exact le_refl _
  | bulkDoneOp sendFailed =>
    simp only [applyOp, OpenSearchConnection.bulkDone]
    split
    · exact ⟨h1, h2⟩
    · next s rest heq =>
      have hrest : rest = [] := by
        have h3 := h2
        rw [heq] at h3
        simp only [List.length_cons] at h3
        exact List.length_eq_zero.mp (by omega)
      split
      · split
        · exact ⟨fun _ => hrest, by rw [hrest]; exact Nat.zero_le _⟩
        · exact ⟨fun _ => hrest, by rw [hrest]; exact Nat.zero_le _⟩
      · exact ⟨fun _ => hrest, by rw [hrest]; exact Nat.zero_le _⟩
  | setEmergency f => exact ⟨h1, h2⟩
  | setSharder f => exact ⟨h1, h2⟩
  | connectOp config clientOk =>
    simp only [applyOp, OpenSearchConnection.connectStep]
    split
    · exact ⟨h1, h2⟩
    · split
      · exact ⟨h1, h2⟩
      · split
        · exact ⟨h1, h2⟩
        · exact ⟨h1, h2⟩

/-- The single-owner discipline holds in every reachable state. -/
theorem singleFlightInv_ops (osc : OpenSearchConnection) (ops : List OslOp)
    (h : singleFlightInv osc) : singleFlightInv (applyOps osc ops) := by
  induction ops generalizing osc with
  | nil => exact h
  | cons op rest ih => exact ih (applyOp osc op) (singleFlightInv_step osc op h)

/-- A bare log record carrying only a message text, as the façade submits. -/
def mkMsg (s : String) : OslMessage where
  appName := ""
  parentLaneId := ""
  journeyId := ""
  laneId := ""
  logMessage := s
  metadata := []

/-- C10: `setEmergencyHandler(fn)` and `setIndexSharder(fn)` each store `fn`
as the new callback and return the previously installed callback (`none`
when none was installed), leaving the buffer contents and all three
counters unchanged. -/
theorem c10_setters_store_and_return_prior (osc : OpenSearchConnection)
    (ef : Option OslEmergencyFn) (sf : Option OslShardNameFn) :
    (osc.setEmergencyHandler ef).1 = osc.emergencyFn ∧
    (osc.setEmergencyHandler ef).2.emergencyFn = ef ∧
    (osc.setEmergencyHandler ef).2.logBuffer = osc.logBuffer ∧
    (osc.setEmergencyHandler ef).2.messagesQueued = osc.messagesQueued ∧
    (osc.setEmergencyHandler ef).2.messagesSent = osc.messagesSent ∧
    (osc.setEmergencyHandler ef).2.messagesSentFailed = osc.messagesSentFailed ∧
    (osc.setEmergencyHandler ef).2.sharderFn = osc.sharderFn ∧
    (osc.setIndexSharder sf).1 = osc.sharderFn ∧
    (osc.setIndexSharder sf).2.sharderFn = sf ∧
    (osc.setIndexSharder sf).2.logBuffer = osc.logBuffer ∧
    (osc.setIndexSharder sf).2.messagesQueued = osc.messagesQueued ∧
    (osc.setIndexSharder sf).2.messagesSent = osc.messagesSent ∧
    (osc.setIndexSharder sf).2.messagesSentFailed = osc.messagesSentFailed ∧
    (osc.setIndexSharder sf).2.emergencyFn = osc.emergencyFn :=
  ⟨rfl, rfl, rfl, rfl, rfl, rfl, rfl, rfl, rfl, rfl, rfl, rfl, rfl, rfl⟩

/-- C6: when a failed batch is requeued, the buffer afterwards equals the
failed batch followed by the records admitted during the failed attempt
(those are exactly the current buffer, since the take emptied it), so the
batch is redelivered before newer records with its internal order intact. -/
theorem c6_requeue_preserves_order (osc : OpenSearchConnection) (s : InFlightSend)
    (rest : List InFlightSend) (h : osc.inFlight = s :: rest)
    (hretry : ¬(osc.nextBackoffDelay > osc.cfg.backoffLimit ∨ s.final = true)) :
    (osc.bulkDone true).state.logBuffer = s.batch ++ osc.logBuffer ∧
    ∃ admittedDuringAttempt,
      (osc.bulkDone true).state.logBuffer = s.batch ++ admittedDuringAttempt := by
  have hmain : (osc.bulkDone true).state.logBuffer = s.batch ++ osc.logBuffer := by
    unfold OpenSearchConnection.bulkDone
    rw [h]
    simp [hretry]
  exact ⟨hmain, osc.logBuffer, hmain⟩

/-- Witness for C6 at a concrete state: one in-flight batch, empty backoff,
generous limit. -/
theorem c6_requeue_preserves_order_witness :
    (({ initialConnection with
        cfg := { emptyConfig with backoffInterval := 5, backoffLimit := 10 },
        logBuffer := [mkMsg "new"],
        flushing := true,
        inFlight := [⟨[mkMsg "a", mkMsg "b"], false, none⟩] } : OpenSearchConnection).bulkDone
          true).state.logBuffer =
      [mkMsg "a", mkMsg "b"] ++ [mkMsg "new"] :=
  (c6_requeue_preserves_order _ _ _ rfl (by decide)).1

/-- C2: on a failed bulk send the next delay is `backoffInterval` when
`backoffDuration` was zero, else double the previous value; if that delay
exceeds `backoffLimit` or the flush is final the batch goes to the
emergency callback, `sentFailed` rises by the batch size and
`backoffDuration` resets to `backoffInterval`; otherwise the batch is
requeued at the head of the buffer and `backoffDuration` becomes the new
delay. -/
theorem c2_backoff_policy (osc : OpenSearchConnection) (s : InFlightSend)
    (rest : List InFlightSend) (h : osc.inFlight = s :: rest) :
    (osc.nextBackoffDelay =
      (if osc.backoffDuration = 0 then osc.cfg.backoffInterval else osc.backoffDuration * 2)) ∧
    ((osc.nextBackoffDelay > osc.cfg.backoffLimit ∨ s.final = true) →
      (osc.bulkDone true).state.messagesSentFailed =
        osc.messagesSentFailed + (s.batch.length : Int) ∧
      (osc.bulkDone true).state.backoffDuration = osc.cfg.backoffInterval ∧
      (osc.bulkDone true).emergencyOut = (if s.efCaptured.isSome then s.batch else []) ∧
      (osc.bulkDone true).state.logBuffer = osc.logBuffer) ∧
    (¬(osc.nextBackoffDelay > osc.cfg.backoffLimit ∨ s.final = true) →
      (osc.bulkDone true).state.logBuffer = s.batch ++ osc.logBuffer ∧
      (osc.bulkDone true).state.backoffDuration = osc.nextBackoffDelay ∧
      (osc.bulkDone true).state.messagesSentFailed = osc.messagesSentFailed ∧
      (osc.bulkDone true).emergencyOut = []) := by
  refine ⟨rfl, fun hc => ?_, fun hc => ?_⟩ <;>
    (unfold OpenSearchConnection.bulkDone
     rw [h]
     simp [hc])

/-- A connection with one failed send outstanding whose doubled delay
exceeds the backoff limit. -/
def giveUpConn : OpenSearchConnection :=
  { initialConnection with
      cfg := { emptyConfig with backoffInterval := 5, backoffLimit := 8 }
      backoffDuration := 5
      flushing := true
      inFlight := [⟨[mkMsg "a"], false, none⟩] }

/-- Witness for C2 at a concrete state: a give-up (limit exceeded) case. -/
theorem c2_backoff_policy_witness :
    (giveUpConn.bulkDone true).state.messagesSentFailed = giveUpConn.messagesSentFailed + 1 ∧
    (giveUpConn.bulkDone true).state.backoffDuration = giveUpConn.cfg.backoffInterval := by
  have h := c2_backoff_policy giveUpConn ⟨[mkMsg "a"], false, none⟩ [] rfl
  have hgu := h.2.1 (Or.inl (by decide))
  exact ⟨by rw [hgu.1]; rfl, hgu.2.1⟩

/-- A connection state whose flush owner is busy, for witnessing. -/
def busyFlushingConn : OpenSearchConnection :=
  { initialConnection with
      clientPresent := true,
      flushing := true,
      logBuffer := [mkMsg "queued"],
      inFlight := [⟨[mkMsg "sending"], false, none⟩] }

/-- C5: at most one bulk send is outstanding in every reachable state, and
while the flush owner is recorded a non-final flush call returns
immediately, handing nothing to the emergency path and taking nothing from
the buffer. -/
theorem c5_single_send_in_flight :
    (∀ ops : List OslOp, (applyOps initialConnection ops).inFlight.length ≤ 1) ∧
    (∀ osc : OpenSearchConnection, osc.flushing = true →
      (osc.flush false).state = osc ∧ (osc.flush false).emergencyOut = []) := by
  constructor
  · intro ops
    exact (singleFlightInv_ops initialConnection ops ⟨fun _ => rfl, Nat.zero_le _⟩).2
  · intro osc hf
    unfold OpenSearchConnection.flush
    simp [hf]

/-- Witness for C5: concrete trace and concrete busy state. -/
theorem c5_single_send_in_flight_witness :
    (applyOps initialConnection []).inFlight.length ≤ 1 ∧
    (busyFlushingConn.flush false).state = busyFlushingConn ∧
    (busyFlushingConn.flush false).emergencyOut = [] :=
  ⟨c5_single_send_in_flight.1 [], c5_single_send_in_flight.2 busyFlushingConn rfl⟩

/-- An offline configuration with a small buffer bound, used to exhibit
`pending` exceeding `maxBufferSize`. -/
def smallOfflineConfig : OslConfig :=
  { emptyConfig with
      maxBufferSize := 2
      logThreshold := 100
      backoffInterval := 1
      backoffLimit := 10 }

/-- C4 counterexample: a reachable state (offline config with
`maxBufferSize = 2`, three appends) in which `pending = queued − sent = 3`
strictly exceeds `maxBufferSize = 2`, refuting `pending ≤ maxBufferSize`. -/
theorem c4_pending_bound_counterexample :
    (applyOps initialConnection
        [OslOp.connectOp (some smallOfflineConfig) true, OslOp.logMsg (mkMsg "a"),
          OslOp.logMsg (mkMsg "b"), OslOp.logMsg (mkMsg "c")]).cfg.maxBufferSize = 2 ∧
    (applyOps initialConnection
        [OslOp.connectOp (some smallOfflineConfig) true, OslOp.logMsg (mkMsg "a"),
          OslOp.logMsg (mkMsg "b"), OslOp.logMsg (mkMsg "c")]).messagesQueued -
      (applyOps initialConnection
        [OslOp.connectOp (some smallOfflineConfig) true, OslOp.logMsg (mkMsg "a"),
          OslOp.logMsg (mkMsg "b"), OslOp.logMsg (mkMsg "c")]).messagesSent = 3 ∧
    ¬((applyOps initialConnection
        [OslOp.connectOp (some smallOfflineConfig) true, OslOp.logMsg (mkMsg "a"),
          OslOp.logMsg (mkMsg "b"), OslOp.logMsg (mkMsg "c")]).messagesQueued -
      (applyOps initialConnection
        [OslOp.connectOp (some smallOfflineConfig) true, OslOp.logMsg (mkMsg "a"),
          OslOp.logMsg (mkMsg "b"), OslOp.logMsg (mkMsg "c")]).messagesSent ≤ 2) := by
  decide

/-- C4 amended: in every reachable state the buffered records plus the
records in flight never exceed `pending = queued − sent` (in particular
`len(buffer) ≤ pending`); `pending` itself is not bounded by
`maxBufferSize`. -/
theorem c4_buffer_bounded_by_pending (ops : List OslOp) :
    ((applyOps initialConnection ops).logBuffer.length : Int) +
        inFlightTotal (applyOps initialConnection ops) ≤
      (applyOps initialConnection ops).messagesQueued -
        (applyOps initialConnection ops).messagesSent ∧
    ((applyOps initialConnection ops).logBuffer.length : Int) ≤
      (applyOps initialConnection ops).messagesQueued -
        (applyOps initialConnection ops).messagesSent := by
  have h := slack_mono_ops initialConnection ops
  have h0 : slack initialConnection = 0 := rfl
  rw [h0] at h
  unfold slack at h
  have hnn : 0 ≤ inFlightTotal (applyOps initialConnection ops) := by
    unfold inFlightTotal inFlightSizes
    apply List.sum_nonneg
    intro x hx
    simp only [List.mem_map] at hx
    obtain ⟨s, _, rfl⟩ := hx
    exact Int.natCast_nonneg _
  omega

/-- C9: when `flushInner` hands a non-empty taken batch straight to the
emergency callback (client nil on a final flush, or empty index), none of
the counters `queued`, `sent`, `sentFailed` change while the records leave
the buffer; thereafter `queued − sent` permanently exceeds the records
still buffered or in flight, in every state reachable from that point. -/
theorem c9_uncounted_emergency_handoff (osc : OpenSearchConnection) (final : Bool)
    (hcl : osc.clientPresent = false ∨ osc.cfg.openSearchIndex = "")
    (hne : osc.logBuffer ≠ [])
    (hinv : 0 ≤ slack osc) :
    (osc.flushInner final).state.messagesQueued = osc.messagesQueued ∧
    (osc.flushInner final).state.messagesSent = osc.messagesSent ∧
    (osc.flushInner final).state.messagesSentFailed = osc.messagesSentFailed ∧
    (osc.flushInner final).state.logBuffer = [] ∧
    (osc.flushInner final).emergencyOut =
      (if osc.emergencyFn.isSome then osc.logBuffer else []) ∧
    ∀ ops : List OslOp,
      ((applyOps (osc.flushInner final).state ops).logBuffer.length : Int) +
          inFlightTotal (applyOps (osc.flushInner final).state ops) <
        (applyOps (osc.flushInner final).state ops).messagesQueued -
          (applyOps (osc.flushInner final).state ops).messagesSent := by
  have hstate : (osc.flushInner final).state = { osc with logBuffer := [] } ∧
      (osc.flushInner final).emergencyOut =
        (if osc.emergencyFn.isSome then osc.logBuffer else []) := by
    unfold OpenSearchConnection.flushInner
    rw [if_neg hne, if_pos hcl]
    exact ⟨rfl, rfl⟩
  obtain ⟨hstate, hout⟩ := hstate
  have hlen : 0 < osc.logBuffer.length := List.length_pos.mpr hne
  have hslack : slack (osc.flushInner final).state =
      slack osc + (osc.logBuffer.length : Int) := by
    rw [hstate]
    unfold slack inFlightTotal
    simp
    omega
  refine ⟨by rw [hstate], by rw [hstate], by rw [hstate], by rw [hstate], hout, ?_⟩
  intro ops
  have hm := slack_mono_ops (osc.flushInner final).state ops
  rw [hslack] at hm
  have hfin : 0 < slack (applyOps (osc.flushInner final).state ops) := by omega
  unfold slack at hfin
  omega

/-- Witness for C9: an offline final flush with one queued, buffered record. -/
theorem c9_uncounted_emergency_handoff_witness :
    (({ initialConnection with logBuffer := [mkMsg "x"], messagesQueued := 1 } :
        OpenSearchConnection).flushInner true).state.messagesQueued =
      ({ initialConnection with logBuffer := [mkMsg "x"], messagesQueued := 1 } :
        OpenSearchConnection).messagesQueued :=
  (c9_uncounted_emergency_handoff
    { initialConnection with logBuffer := [mkMsg "x"], messagesQueued := 1 } true
    (Or.inl rfl) (by decide) (by decide)).1

/-- An online configuration with `maxBufferSize = 4`, for exercising the
drop policy with a batch in flight. -/
def smallOnlineConfig : OslConfig :=
  { emptyConfig with
      openSearchHost := "localhost"
      openSearchTransportPresent := true
      openSearchIndex := "logging"
      maxBufferSize := 4
      logThreshold := 100
      backoffInterval := 1
      backoffLimit := 10 }

/-- A reachable state with one record in flight and three buffered:
connect online (max 4), append one record, start a flush (which takes it),
then append three more. -/
def c1State : OpenSearchConnection :=
  applyOps initialConnection
    [OslOp.connectOp (some smallOnlineConfig) true, OslOp.logMsg (mkMsg "a"),
      OslOp.flushOp false, OslOp.logMsg (mkMsg "b"), OslOp.logMsg (mkMsg "c"),
      OslOp.logMsg (mkMsg "d")]

/-- C1 counterexample: in the reachable state `c1State` (`pending = 4 =
maxBufferSize`, 3 buffered, 1 in flight), the next append drops 2 records
and adds 2 to `sentFailed`, while the claimed formula
`min(pending+1−maxBufferSize, len(buffer))` gives 1: the code adds the
in-flight count to the cut. -/
theorem c1_drop_count_counterexample :
    c1State.messagesQueued - c1State.messagesSent ≥ c1State.cfg.maxBufferSize ∧
    c1State.logBuffer.length = 3 ∧
    min ((c1State.messagesQueued - c1State.messagesSent) + 1 - c1State.cfg.maxBufferSize)
      (c1State.logBuffer.length : Int) = 1 ∧
    (c1State.log (mkMsg "e")).dropped.length = 2 ∧
    (c1State.log (mkMsg "e")).state.messagesSentFailed = c1State.messagesSentFailed + 2 := by
  decide

/-- C1 amended: when `pending ≥ maxBufferSize` (with the invariant
`len(buffer) ≤ pending`), an append drops exactly
`min((pending+1−maxBufferSize) + (pending − len(buffer)), len(buffer))`
oldest buffered records — the code adds the in-flight count
`pending − len(buffer)` to the spec's `pending+1−maxBufferSize` —
increments `sentFailed` by exactly that count, and forwards the dropped
records to the emergency callback when one is installed. -/
theorem c1_drop_count_amended (osc : OpenSearchConnection) (msg : OslMessage)
    (hmax : osc.cfg.maxBufferSize ≤ osc.messagesQueued - osc.messagesSent)
    (hlen : (osc.logBuffer.length : Int) ≤ osc.messagesQueued - osc.messagesSent) :
    (osc.log msg).dropped =
      osc.logBuffer.take
        (min (((osc.messagesQueued - osc.messagesSent) + 1 - osc.cfg.maxBufferSize) +
            ((osc.messagesQueued - osc.messagesSent) - (osc.logBuffer.length : Int)))
          (osc.logBuffer.length : Int)).toNat ∧
    (osc.log msg).state.messagesSentFailed =
      osc.messagesSentFailed +
        (min (((osc.messagesQueued - osc.messagesSent) + 1 - osc.cfg.maxBufferSize) +
            ((osc.messagesQueued - osc.messagesSent) - (osc.logBuffer.length : Int)))
          (osc.logBuffer.length : Int)).toNat ∧
    (osc.log msg).emergencyOut =
      (if 0 < (osc.log msg).dropped.length ∧ osc.emergencyFn.isSome then
        (osc.log msg).dropped else []) := by
  have hcutpt : 0 < osc.logCutPoint := by
    unfold OpenSearchConnection.logCutPoint
    omega
  have hcut : osc.logCut =
      (min (((osc.messagesQueued - osc.messagesSent) + 1 - osc.cfg.maxBufferSize) +
          ((osc.messagesQueued - osc.messagesSent) - (osc.logBuffer.length : Int)))
        (osc.logBuffer.length : Int)).toNat := by
    unfold OpenSearchConnection.logCut OpenSearchConnection.logCutPoint
    unfold OpenSearchConnection.logCutPoint at hcutpt
    rcases le_total ((osc.logBuffer.length : Int))
        (((osc.messagesQueued - osc.messagesSent) + 1 - osc.cfg.maxBufferSize) +
          ((osc.messagesQueued - osc.messagesSent) - (osc.logBuffer.length : Int))) with hle | hle
    · rw [if_pos hle, min_eq_right hle]
    · rcases eq_or_lt_of_le hle with heq | hlt
      · rw [heq]
        simp
      · rw [if_neg (by omega), min_eq_left hle]
  have hsplit : osc.logDropSplit = (osc.logBuffer.take osc.logCut, osc.logBuffer.drop osc.logCut) := by
    unfold OpenSearchConnection.logDropSplit
    rw [if_pos hmax, if_pos hcutpt]
  have hdropped : (osc.log msg).dropped = osc.logBuffer.take osc.logCut := by
    simp only [OpenSearchConnection.log, hsplit]
  have hdlen : (osc.log msg).dropped.length = osc.logCut := by
    rw [hdropped, List.length_take, Nat.min_eq_left (logCut_le osc)]
  have hsf : (osc.log msg).state.messagesSentFailed =
      osc.messagesSentFailed + ((osc.logBuffer.take osc.logCut).length : Int) := by
    simp only [OpenSearchConnection.log, hsplit]
    rcases Nat.eq_zero_or_pos (osc.logBuffer.take osc.logCut).length with h0 | h0
    · rw [if_neg (by omega), h0]
      simp
    · rw [if_pos h0]
  refine ⟨by rw [hdropped, hcut], ?_, ?_⟩
  · rw [hsf, List.length_take, Nat.min_eq_left (logCut_le osc), hcut]
  · simp only [OpenSearchConnection.log, hsplit]

/-- Witness for C1 amended, at the reachable state `c1State`. -/
theorem c1_drop_count_amended_witness :
    (c1State.log (mkMsg "e")).dropped =
      c1State.logBuffer.take
        (min (((c1State.messagesQueued - c1State.messagesSent) + 1 - c1State.cfg.maxBufferSize) +
            ((c1State.messagesQueued - c1State.messagesSent) - (c1State.logBuffer.length : Int)))
          (c1State.logBuffer.length : Int)).toNat :=
  (c1_drop_count_amended c1State (mkMsg "e") (by decide) (by decide)).1

/-- A connection whose config has `logThreshold = 1`, so every append
crosses the threshold. -/
def thresholdOneConn : OpenSearchConnection :=
  { initialConnection with
      cfg := { emptyConfig with
                  logThreshold := 1
                  maxBufferSize := 100
                  backoffInterval := 1
                  backoffLimit := 10 } }

/-- C3 counterexample: an append that crosses the threshold reaches the
wake send, but the send on the capacity-1 channel is a plain Go channel
send: with the slot already occupied it does not complete (`none`) — the
producer blocks and the signal is not dropped — whereas the claimed
non-blocking drop semantics (`wakeChanSendSpec`) would complete at once. -/
theorem c3_wake_counterexample :
    (thresholdOneConn.log (mkMsg "a")).wakeSignal = true ∧
    wakeChanSend true = none ∧
    wakeChanSendSpec true = some true ∧
    wakeChanSend true ≠ wakeChanSendSpec true := by
  decide

/-- C3 amended: after an append, the code attempts a wake send exactly when
the new `pending` is a (positive) multiple of `logThreshold`; the send on
the single-slot channel completes immediately when the slot is free, and
when the slot is already occupied the producer blocks until the shipper
drains the slot — the signal is never dropped. -/
theorem c3_wake_amended (osc : OpenSearchConnection) (msg : OslMessage)
    (hth : 0 < osc.cfg.logThreshold)
    (hpend : 0 ≤ osc.messagesQueued - osc.messagesSent) :
    ((osc.log msg).wakeSignal = true ↔
      ((osc.messagesQueued + 1) - osc.messagesSent) % osc.cfg.logThreshold = 0) ∧
    (0 < (osc.messagesQueued + 1) - osc.messagesSent) ∧
    (∀ slotFull : Bool, wakeChanSend slotFull = none ↔ slotFull = true) := by
  refine ⟨?_, by omega, ?_⟩
  · have htm : Int.tmod ((osc.messagesQueued + 1) - osc.messagesSent) osc.cfg.logThreshold =
        ((osc.messagesQueued + 1) - osc.messagesSent) % osc.cfg.logThreshold :=
      Int.tmod_eq_emod (by omega) (le_of_lt hth)
    show (decide (Int.tmod ((osc.messagesQueued + 1) - osc.messagesSent)
        osc.cfg.logThreshold = 0) = true) ↔ _
    rw [decide_eq_true_iff, htm]
  · intro slotFull
    cases slotFull <;> simp [wakeChanSend]

/-- Witness for C3 amended at `thresholdOneConn`. -/
theorem c3_wake_amended_witness :
    ((thresholdOneConn.log (mkMsg "a")).wakeSignal = true ↔
      ((thresholdOneConn.messagesQueued + 1) - thresholdOneConn.messagesSent) %
        thresholdOneConn.cfg.logThreshold = 0) :=
  (c3_wake_amended thresholdOneConn (mkMsg "a") (by decide) (by decide)).1

/-- `applyConfigDefaults` does not change the offline flag. -/
theorem applyConfigDefaults_offline (c : OslConfig) :
    (applyConfigDefaults c).offline = c.offline := by
  unfold applyConfigDefaults defaultBackoffLimitRule defaultBackoffIntervalRule
    defaultMaxBufferSizeRule defaultLogThresholdRule
  split <;> split <;> split <;> split <;> rfl

/-- `onlineDefaults` does not change the offline flag. -/
theorem onlineDefaults_offline (c : OslConfig) :
    (onlineDefaults c).offline = c.offline := by
  unfold onlineDefaults defaultPortRule defaultProtocolRule
  split
  · split <;> split <;> rfl
  · rfl

/-- C7: `connect` fails with `IndexNameRequired` exactly when the supplied
config is online (non-empty host, non-nil transport) with an empty index —
for configs whose unexported `offline` flag is clear, as every caller
outside the package supplies — and on that error nothing reaches the
shipper: the effective config and client are unchanged. -/
theorem c7_index_name_required (osc : OpenSearchConnection) (config : Option OslConfig)
    (clientOk : Bool) (hoff : ∀ c, config = some c → c.offline = false) :
    ((osc.connectStep config clientOk).1 = some ConnectError.indexNameRequired ↔
      ∃ c, config = some c ∧ c.openSearchHost ≠ "" ∧ c.openSearchTransportPresent = true ∧
        c.openSearchIndex = "") ∧
    ((osc.connectStep config clientOk).1 = some ConnectError.indexNameRequired →
      (osc.connectStep config clientOk).2 = osc) := by
  cases config with
  | none =>
    have h1 : (osc.connectStep none clientOk).1 = none := rfl
    rw [h1]
    constructor
    · constructor
      · intro h
        exact absurd h (by simp)
      · rintro ⟨c, hc, -⟩
        exact absurd hc (by simp)
    · intro h
      exact absurd h (by simp)
  | some c =>
    have hc : c.offline = false := hoff c rfl
    by_cases hcase : (offlineNormalize c).openSearchIndex = "" ∧ (offlineNormalize c).offline = false
    · have hsan : connectSanitize (some c) = Except.error ConnectError.indexNameRequired := by
        show (if (offlineNormalize c).openSearchIndex = "" ∧ (offlineNormalize c).offline = false then
            Except.error ConnectError.indexNameRequired
          else Except.ok (applyConfigDefaults (onlineDefaults (offlineNormalize c)))) = _
        rw [if_pos hcase]
      have herr : osc.connectStep (some c) clientOk = (some ConnectError.indexNameRequired, osc) := by
        unfold OpenSearchConnection.connectStep
        rw [hsan]
      rw [herr]
      have honline : c.openSearchHost ≠ "" ∧ c.openSearchTransportPresent = true := by
        by_contra hno
        have : (offlineNormalize c).offline = true := by
          unfold offlineNormalize
          rw [if_pos ?_]
          · push_neg at hno
            by_cases hh : c.openSearchHost = ""
            · exact Or.inl hh
            · cases ht : c.openSearchTransportPresent with
              | true => exact absurd ht (hno hh)
              | false => exact Or.inr rfl
        rw [hcase.2] at this
        exact Bool.false_ne_true this
      have hidx : c.openSearchIndex = "" := by
        have := hcase.1
        unfold offlineNormalize at this
        split at this <;> exact this
      exact ⟨by simp [honline.1, honline.2, hidx], fun _ => rfl⟩
    · have hcfg : connectSanitize (some c) =
          Except.ok (applyConfigDefaults (onlineDefaults (offlineNormalize c))) := by
        show (if (offlineNormalize c).openSearchIndex = "" ∧ (offlineNormalize c).offline = false then
            Except.error ConnectError.indexNameRequired
          else Except.ok (applyConfigDefaults (onlineDefaults (offlineNormalize c)))) = _
        rw [if_neg hcase]
      set cfg := applyConfigDefaults (onlineDefaults (offlineNormalize c)) with hcfgdef
      have hfst : (osc.connectStep (some c) clientOk).1 = none ∨
          (osc.connectStep (some c) clientOk).1 = some ConnectError.clientError := by
        unfold OpenSearchConnection.connectStep
        rw [hcfg]
        by_cases ho : cfg.offline = true
        · simp [ho]
        · simp only [Bool.not_eq_true] at ho
          simp only [ho]
          cases clientOk <;> simp
      have hne : (osc.connectStep (some c) clientOk).1 ≠ some ConnectError.indexNameRequired := by
        rcases hfst with h | h <;> rw [h] <;> simp
      constructor
      · constructor
        · intro h
          exact absurd h hne
        · rintro ⟨c', hc', hhost, htrans, hidx⟩
          injection hc' with hcc
          subst hcc
          exfalso
          apply hcase
          refine ⟨?_, ?_⟩
          · unfold offlineNormalize
            split <;> exact hidx
          · have hcond : ¬(c.openSearchHost = "" ∨ c.openSearchTransportPresent = false) := by
              rintro (hh | ht)
              · exact hhost hh
              · rw [htrans] at ht
                exact Bool.noConfusion ht
            unfold offlineNormalize
            rw [if_neg hcond]
            exact hc
      · intro h
        exact absurd h hne

/-- An online config lacking an index name. -/
def indexlessOnlineConfig : OslConfig :=
  { emptyConfig with
      openSearchHost := "localhost"
      openSearchTransportPresent := true }

/-- Witness for C7: an online config without an index fails with
`IndexNameRequired` and leaves the state untouched. -/
theorem c7_index_name_required_witness :
    (initialConnection.connectStep (some indexlessOnlineConfig) true).1 =
        some ConnectError.indexNameRequired ∧
    (initialConnection.connectStep (some indexlessOnlineConfig) true).2 = initialConnection := by
  have h := c7_index_name_required initialConnection (some indexlessOnlineConfig) true
    (fun c hc => by cases hc; rfl)
  have herr := h.1.mpr ⟨indexlessOnlineConfig, rfl, by decide, rfl, rfl⟩
  exact ⟨herr, h.2 herr⟩

/-- The lines produced for a batch when every record marshals: action line
then record line, per record in order. -/
def bulkLinesSpec (osc : OpenSearchConnection) (marshalled : OslMessage → String) :
    List OslMessage → List String
  | [] => []
  | m :: rest =>
    createActionLine (specIndexFor osc) :: marshalled m :: bulkLinesSpec osc marshalled rest

/-- When every record in the batch marshals, `generateBulkJsonLines`
produces exactly the alternating action/record lines. -/
theorem generateBulkJsonLines_ok (osc : OpenSearchConnection)
    (marshalMsg : OslMessage → Except String String) (marshalled : OslMessage → String)
    (batch : List OslMessage)
    (hok : ∀ m ∈ batch, marshalMsg m = Except.ok (marshalled m)) :
    generateBulkJsonLines osc marshalMsg batch =
      Except.ok (bulkLinesSpec osc marshalled batch) := by
  induction batch with
  | nil => rfl
  | cons m rest ih =>
    have hm := hok m (List.mem_cons_self m rest)
    have hrest := ih (fun x hx => hok x (List.mem_cons_of_mem m hx))
    simp only [generateBulkJsonLines, bulkLinesSpec, hm, hrest]
    rfl

/-- `goStringsJoin` on a cons with a non-empty tail. -/
theorem goStringsJoin_cons_ne (a : String) (l : List String) (sep : String) (h : l ≠ []) :
    goStringsJoin (a :: l) sep = a ++ sep ++ goStringsJoin l sep := by
  cases l with
  | nil => exact absurd rfl h
  | cons b t => rfl

/-- Joining the alternating lines with newlines and appending a final
newline yields the specification's payload shape, for non-empty batches. -/
theorem goStringsJoin_bulkLines (osc : OpenSearchConnection) (marshalled : OslMessage → String)
    (batch : List OslMessage) (hne : batch ≠ []) :
    goStringsJoin (bulkLinesSpec osc marshalled batch) "\n" ++ "\n" =
      bulkPayloadSpec osc marshalled batch := by
  induction batch with
  | nil => exact absurd rfl hne
  | cons m rest ih =>
    cases rest with
    | nil =>
      show createActionLine (specIndexFor osc) ++ "\n" ++ marshalled m ++ "\n" =
        createActionLine (specIndexFor osc) ++ "\n" ++ marshalled m ++ "\n" ++ ""
      rw [String.append_empty]
    | cons m2 t =>
      have hne2 : (m2 :: t : List OslMessage) ≠ [] := by simp
      have hlne : bulkLinesSpec osc marshalled (m2 :: t) ≠ [] := by
        show createActionLine (specIndexFor osc) :: _ ≠ []
        simp
      have step1 : bulkLinesSpec osc marshalled (m :: m2 :: t) =
          createActionLine (specIndexFor osc) :: marshalled m ::
            bulkLinesSpec osc marshalled (m2 :: t) := rfl
      have step2 : bulkPayloadSpec osc marshalled (m :: m2 :: t) =
          createActionLine (specIndexFor osc) ++ "\n" ++ marshalled m ++ "\n" ++
            bulkPayloadSpec osc marshalled (m2 :: t) := rfl
      rw [step1, goStringsJoin_cons_ne _ _ _ (by simp),
        goStringsJoin_cons_ne _ _ _ hlne, step2, ← ih hne2]
      simp [String.append_assoc]

/-- C8: for a non-empty batch whose records all marshal, the bulk payload
is exactly the alternation of `create` action lines (index sharded when a
sharder is set and the index is non-empty) and record lines, joined by
newlines with a single trailing newline. -/
theorem c8_bulk_payload (osc : OpenSearchConnection)
    (marshalMsg : OslMessage → Except String String) (marshalled : OslMessage → String)
    (batch : List OslMessage) (hne : batch ≠ [])
    (hok : ∀ m ∈ batch, marshalMsg m = Except.ok (marshalled m)) :
    osc.generateBulkJson marshalMsg batch =
      Except.ok (bulkPayloadSpec osc marshalled batch) := by
  unfold OpenSearchConnection.generateBulkJson
  rw [generateBulkJsonLines_ok osc marshalMsg marshalled batch hok]
  show Except.ok (goStringsJoin (bulkLinesSpec osc marshalled batch) "\n" ++ "\n") = _
  rw [goStringsJoin_bulkLines osc marshalled batch hne]

/-- A connection with an index and a sharder installed, for witnessing. -/
def shardedConn : OpenSearchConnection :=
  { initialConnection with
      cfg := { emptyConfig with openSearchIndex := "logging" }
      sharderFn := some (fun s => s ++ "-1") }

/-- Witness for C8 on a two-record batch with a sharder installed. -/
theorem c8_bulk_payload_witness :
    shardedConn.generateBulkJson (fun m => Except.ok (goJsonQuote m.logMessage))
        [mkMsg "a", mkMsg "b"] =
      Except.ok (bulkPayloadSpec shardedConn (fun m => goJsonQuote m.logMessage)
        [mkMsg "a", mkMsg "b"]) :=
  c8_bulk_payload shardedConn (fun m => Except.ok (goJsonQuote m.logMessage))
    (fun m => goJsonQuote m.logMessage) [mkMsg "a", mkMsg "b"] (by simp)
    (fun m _ => rfl)

end Osl
